import Mathlib

/-!
Shallow embedding of the real-time Gemini Live conversation client
(src/src/lib/gemini-live.ts, class GeminiLiveClient): session state, inbound
message dispatch (handleMessage), playback scheduling (playQueuedAudio),
transcript accumulation and flush, outbound text (sendText), teardown
(disconnect), and the audio/base64 codec helpers.

Modelling conventions:
- Machine floats never enter the picture: every float value the claims touch
  is of the form k / 32768 with |k| ≤ 32768, exactly representable in both
  float32 and float64, and the operations applied to it (division and
  multiplication by the power of two 32768, Math.min/Math.max, truncation)
  are exact on that domain, so ℚ is a faithful image of the float arithmetic.
- The Web Audio clock (AudioContext.currentTime) and buffer durations are ℚ.
- The platform pieces the client calls into are modelled by their documented
  semantics: btoa/atob are the standard RFC 4648 base64 codec; source.start t
  adds a (startTime, duration) entry to the context's scheduled-source set;
  closing an AudioContext releases it and stops its scheduled sources.
- Console logging is modelled only where a claim depends on it (the
  handleMessage catch path and the sendText not-connected path).
-/

namespace GeminiLive

/-- Role tag of an emitted message: the `type` field of `LiveMessage`. -/
inductive Role where
  | user
  | model
  | system
deriving DecidableEq

/-- An emitted message, mirroring `LiveMessage {type, content, timestamp}`
(the optional `audioData` field is never set by the client and is omitted). -/
structure LiveMessage where
  type : Role
  content : String
  timestamp : Nat
deriving DecidableEq

/-- One turn of an outbound `clientContent` frame. -/
structure ClientTurn where
  role : String
  parts : List String
deriving DecidableEq

/-- Outbound `clientContent` frame body sent by `sendText`. -/
structure ClientContent where
  turns : List ClientTurn
  turnComplete : Bool
deriving DecidableEq

/-- Observable effects of one synchronous client call: callback invocations,
websocket sends, and console logging where claim-relevant. -/
inductive Action where
  | callbackConnect
  | callbackMessage (m : LiveMessage)
  | callbackAudio (bytes : List Nat)
  | callbackInterrupted
  | callbackTurnComplete
  | wsSend (frame : ClientContent)
  | log (msg : String)
deriving DecidableEq

/-- Discriminator for `onMessage` callback invocations. -/
def isMessageCallback : Action → Bool
  | Action.callbackMessage _ => true
  | _ => false

/-- Discriminator for websocket sends. -/
def isWsSend : Action → Bool
  | Action.wsSend _ => true
  | _ => false

/-- Inbound `inlineData` of a model-turn part. -/
structure InlineData where
  data : Option String
deriving DecidableEq

/-- Inbound model-turn part: `{ text?, inlineData? }`. -/
structure MsgPart where
  text : Option String
  inlineData : Option InlineData
deriving DecidableEq

/-- Inbound `modelTurn`: `{ parts?: [...] }`. -/
structure ModelTurn where
  parts : Option (List MsgPart)
deriving DecidableEq

/-- Inbound transcription object: `{ text?: string }`. -/
structure Transcription where
  text : Option String
deriving DecidableEq

/-- Inbound `serverContent` payload. The `interrupted` and `turnComplete`
fields are truthiness-checked in the source, modelled as Bool. -/
structure ServerContent where
  interrupted : Bool
  modelTurn : Option ModelTurn
  inputTranscription : Option Transcription
  outputTranscription : Option Transcription
  turnComplete : Bool
deriving DecidableEq

/-- A parsed inbound frame: `{ setupComplete?, serverContent? }`. -/
structure ServerMsg where
  setupComplete : Bool
  serverContent : Option ServerContent
deriving DecidableEq

/-! Base64 codec.  `arrayBufferToBase64` builds a binary string from the
bytes and calls the platform `btoa`; `base64ToArrayBuffer` calls `atob` and
reads char codes back.  btoa/atob are the standard RFC 4648 base64 codec,
modelled here byte-for-byte; bytes are `Nat` values < 256. -/

/-- Character of the standard base64 alphabet for a sextet value < 64. -/
def sextetToChar (n : Nat) : Char :=
  Char.ofNat
    (if n < 26 then 65 + n
     else if n < 52 then 97 + (n - 26)
     else if n < 62 then 48 + (n - 52)
     else if n = 62 then 43
     else 47)

/-- Sextet value of a standard base64 alphabet character. -/
def charToSextet (c : Char) : Nat :=
  if 65 ≤ c.toNat ∧ c.toNat ≤ 90 then c.toNat - 65
  else if 97 ≤ c.toNat ∧ c.toNat ≤ 122 then c.toNat - 97 + 26
  else if 48 ≤ c.toNat ∧ c.toNat ≤ 57 then c.toNat - 48 + 52
  else if c.toNat = 43 then 62
  else if c.toNat = 47 then 63
  else 0

/-- Base64 encoding of a byte buffer (the composition
`btoa` after `String.fromCharCode` in `arrayBufferToBase64`). -/
def bytesToBase64 : List Nat → List Char
  | [] => []
  | [a] =>
    [sextetToChar (a / 4), sextetToChar (a % 4 * 16), '=', '=']
  | [a, b] =>
    [sextetToChar (a / 4), sextetToChar (a % 4 * 16 + b / 16),
     sextetToChar (b % 16 * 4), '=']
  | a :: b :: c :: rest =>
    sextetToChar (a / 4) :: sextetToChar (a % 4 * 16 + b / 16) ::
    sextetToChar (b % 16 * 4 + c / 64) :: sextetToChar (c % 64) ::
    bytesToBase64 rest

/-- Base64 decoding back to a byte buffer (the composition of `atob` and
`charCodeAt` in `base64ToArrayBuffer`). -/
def base64ToBytes : List Char → List Nat
  | c1 :: c2 :: c3 :: c4 :: rest =>
    if c3 = '=' then
      [charToSextet c1 * 4 + charToSextet c2 / 16]
    else if c4 = '=' then
      [charToSextet c1 * 4 + charToSextet c2 / 16,
       charToSextet c2 % 16 * 16 + charToSextet c3 / 4]
    else
      (charToSextet c1 * 4 + charToSextet c2 / 16) ::
      (charToSextet c2 % 16 * 16 + charToSextet c3 / 4) ::
      (charToSextet c3 % 4 * 64 + charToSextet c4) ::
      base64ToBytes rest
  | _ => []

/-! PCM codec.  `playQueuedAudio` converts int16 samples to floats by
`int16Data[i] / 32768`; the microphone path converts floats back by
`Math.max(-32768, Math.min(32767, inputData[i] * 32768))` stored into an
`Int16Array` (ECMAScript ToInt16: truncate toward zero, wrap mod 2^16).
All of this is exact float arithmetic on the domain in question, so ℚ is a
faithful model. -/

/-- The pcm16-to-float32 scaling of `playQueuedAudio`: `int16Data[i] / 32768`. -/
def pcm16ToFloat32 (k : Int) : ℚ := (k : ℚ) / 32768

/-- Truncation of a rational toward zero, the rounding ECMAScript applies
when storing a number into an `Int16Array`. -/
def ratTrunc (q : ℚ) : Int := q.num.sign * ((q.num.natAbs / q.den : Nat) : Int)

/-- ECMAScript ToInt16: truncate toward zero, reduce mod 2^16 into the
signed 16-bit range. -/
def toInt16 (q : ℚ) : Int :=
  if 32768 ≤ ratTrunc q % 65536 then ratTrunc q % 65536 - 65536
  else ratTrunc q % 65536

/-- The float32-to-pcm16 scaling of the microphone capture path:
`Math.max(-32768, Math.min(32767, sample * 32768))` stored into `Int16Array`. -/
def float32ToPcm16 (q : ℚ) : Int :=
  toInt16 (max (-32768) (min 32767 (q * 32768)))

/-! Session state.  Mirrors the mutable fields of `GeminiLiveClient`:
`ws` (modelled as an open-flag), `isConnected`, the microphone capture
resources (`mediaStream`/`audioContext`, one open-flag), `audioQueue`,
`playbackContext` (open-flag), `nextPlayTime`, and the two transcript
registers.  `scheduled` is the playback context's set of sources passed to
`source.start`, as (startTime, duration) pairs: platform state the client
manipulates through `source.start` and `playbackContext.close()`. -/

structure SessionState where
  wsOpen : Bool
  isConnected : Bool
  micOpen : Bool
  audioQueue : List (List Nat)
  playbackOpen : Bool
  nextPlayTime : ℚ
  scheduled : List (ℚ × ℚ)
  userResponseBuffer : String
  modelResponseBuffer : String
deriving DecidableEq

/-- Field values at construction time. -/
def initialState : SessionState :=
  { wsOpen := false, isConnected := false, micOpen := false, audioQueue := [],
    playbackOpen := false, nextPlayTime := 0, scheduled := [],
    userResponseBuffer := "", modelResponseBuffer := "" }

/-- Duration in seconds of a queued PCM byte buffer:
`byteLength / 2` int16 samples at 24000 Hz (`audioBuffer.duration`). -/
def bufferDuration (bytes : List Nat) : ℚ := ((bytes.length / 2 : Nat) : ℚ) / 24000

/-- Value of `nextPlayTime` after the `while` loop of `playQueuedAudio`
drains the queue: each buffer starts at `max(ctx.currentTime, nextPlayTime)`
and advances the cursor by its duration. -/
def drainNextPlayTime (now : ℚ) : List (List Nat) → ℚ → ℚ
  | [], npt => npt
  | b :: rest, npt => drainNextPlayTime now rest (max now npt + bufferDuration b)

/-- The (startTime, duration) pairs passed to `source.start` while the
`while` loop of `playQueuedAudio` drains the queue. -/
def drainStarts (now : ℚ) : List (List Nat) → ℚ → List (ℚ × ℚ)
  | [], _ => []
  | b :: rest, npt =>
    (max now npt, bufferDuration b) :: drainStarts now rest (max now npt + bufferDuration b)

/-- The `playQueuedAudio` method: return if the queue is empty; lazily
create the playback context (initializing `nextPlayTime` to its clock);
schedule every queued buffer back-to-back and empty the queue.
`now` is the playback clock reading `ctx.currentTime` during the call. -/
def playQueuedAudio (now : ℚ) (s : SessionState) : SessionState :=
  if s.audioQueue = [] then s
  else
    let s1 := if s.playbackOpen then s
              else { s with playbackOpen := true, nextPlayTime := now }
    { s1 with audioQueue := [],
              nextPlayTime := drainNextPlayTime now s1.audioQueue s1.nextPlayTime,
              scheduled := s1.scheduled ++ drainStarts now s1.audioQueue s1.nextPlayTime }

/-- One playback-scheduler enqueue as the inbound audio path performs it:
`audioQueue.push(bytes)` immediately followed by `playQueuedAudio()`. -/
def enqueueAudio (now : ℚ) (bytes : List Nat) (s : SessionState) : SessionState :=
  playQueuedAudio now { s with audioQueue := s.audioQueue ++ [bytes] }

/-- The per-part body of the `modelTurn.parts` loop in `handleMessage`:
when `part.inlineData?.data` is truthy, decode it, push it on the queue,
invoke `onAudio`, and run `playQueuedAudio`. -/
def processPart (audioNow : ℚ) (sa : SessionState × List Action) (p : MsgPart) :
    SessionState × List Action :=
  match p.inlineData with
  | some idata =>
    match idata.data with
    | some d =>
      if d = "" then sa
      else
        (playQueuedAudio audioNow
           { sa.1 with audioQueue := sa.1.audioQueue ++ [base64ToBytes d.toList] },
         sa.2 ++ [Action.callbackAudio (base64ToBytes d.toList)])
    | none => sa
  | none => sa

/-- The `inputTranscription` block of `handleMessage`: append a truthy
chunk onto the user register. -/
def appendInput (tr : Option Transcription) (s : SessionState) : SessionState :=
  match tr with
  | some t =>
    match t.text with
    | some txt =>
      if txt = "" then s
      else { s with userResponseBuffer := s.userResponseBuffer ++ txt }
    | none => s
  | none => s

/-- The `outputTranscription` block of `handleMessage`: append a truthy
chunk onto the model register. -/
def appendOutput (tr : Option Transcription) (s : SessionState) : SessionState :=
  match tr with
  | some t =>
    match t.text with
    | some txt =>
      if txt = "" then s
      else { s with modelResponseBuffer := s.modelResponseBuffer ++ txt }
    | none => s
  | none => s

/-- The JavaScript `String.prototype.trim`: strip leading and trailing
whitespace.  Defined structurally over the character list so it is
kernel-computable (Lean's own `String.trim` is equivalent but defined by
well-founded recursion). -/
def jsTrim (s : String) : String :=
  ((s.toList.dropWhile Char.isWhitespace).reverse.dropWhile Char.isWhitespace).reverse.asString

/-- The `turnComplete` block of `handleMessage`: for each register whose
trimmed content is truthy, emit one `onMessage` with the trimmed text and
clear the register (user first, then model), then invoke `onTurnComplete`. -/
def flushTurn (nowMs : Nat) (s : SessionState) : SessionState × List Action :=
  let r1 :=
    if jsTrim s.userResponseBuffer = "" then (s, ([] : List Action))
    else ({ s with userResponseBuffer := "" },
          [Action.callbackMessage
            { type := Role.user, content := jsTrim s.userResponseBuffer, timestamp := nowMs }])
  let r2 :=
    if jsTrim r1.1.modelResponseBuffer = "" then (r1.1, ([] : List Action))
    else ({ r1.1 with modelResponseBuffer := "" },
          [Action.callbackMessage
            { type := Role.model, content := jsTrim r1.1.modelResponseBuffer, timestamp := nowMs }])
  (r2.1, r1.2 ++ r2.2 ++ [Action.callbackTurnComplete])

/-- The `serverContent` block of `handleMessage`: an interrupted frame
clears the audio queue, fires `onInterrupted` and returns immediately;
otherwise audio parts are played, transcription chunks accumulated, and a
turn-complete signal flushed. -/
def handleServerContent (nowMs : Nat) (audioNow : ℚ) (s : SessionState)
    (sc : ServerContent) : SessionState × List Action :=
  if sc.interrupted then
    ({ s with audioQueue := [] }, [Action.callbackInterrupted])
  else
    let r1 :=
      match sc.modelTurn with
      | some mt =>
        match mt.parts with
        | some parts => parts.foldl (processPart audioNow) (s, [])
        | none => (s, ([] : List Action))
      | none => (s, ([] : List Action))
    let s3 := appendOutput sc.outputTranscription (appendInput sc.inputTranscription r1.1)
    if sc.turnComplete then
      ((flushTurn nowMs s3).1, r1.2 ++ (flushTurn nowMs s3).2)
    else (s3, r1.2)

/-- The `handleMessage` receive handler.  `frame` is the JSON parse result:
`none` when parsing threw (the catch logs and drops the frame).  `nowMs`
models `Date.now()` and `audioNow` the playback clock during the call. -/
def handleMessage (nowMs : Nat) (audioNow : ℚ) (s : SessionState)
    (frame : Option ServerMsg) : SessionState × List Action :=
  match frame with
  | none => (s, [Action.log "Error parsing message"])
  | some m =>
    if m.setupComplete then
      ({ s with isConnected := true }, [Action.callbackConnect])
    else
      match m.serverContent with
      | some sc => handleServerContent nowMs audioNow s sc
      | none => (s, [])

/-- The `sendText` method: a no-op with a logged error unless the websocket
is open and the setup acknowledgment was received; otherwise it sends one
immediately-closed user turn and invokes `onMessage` with the text. -/
def sendText (nowMs : Nat) (s : SessionState) (text : String) :
    SessionState × List Action :=
  if s.wsOpen = false ∨ s.isConnected = false then
    (s, [Action.log "Not connected to Live API"])
  else
    (s, [Action.wsSend { turns := [{ role := "user", parts := [text] }], turnComplete := true },
         Action.callbackMessage { type := Role.user, content := text, timestamp := nowMs }])

/-- The `disconnect` method: stop the microphone, close the playback
context (which stops its scheduled sources), close the websocket, and reset
connection flag, audio queue and transcript registers.  It makes no
callback invocations of its own. -/
def disconnect (s : SessionState) : SessionState × List Action :=
  let s1 := { s with micOpen := false }
  let s2 := if s1.playbackOpen then { s1 with playbackOpen := false, scheduled := [] } else s1
  let s3 := if s2.wsOpen then { s2 with wsOpen := false } else s2
  ({ s3 with isConnected := false, audioQueue := [],
             modelResponseBuffer := "", userResponseBuffer := "" }, [])

/-- States of `nextPlayTime` observed before the first and after each call
of a sequence of playback enqueues starting from state `s`; each list entry
`(now, bytes)` is one enqueue at playback-clock time `now`. -/
def nptTrace : List (ℚ × List Nat) → SessionState → List ℚ
  | [], s => [s.nextPlayTime]
  | (now, b) :: rest, s => s.nextPlayTime :: nptTrace rest (enqueueAudio now b s)

/-- Byte buffer used by the barge-in counterexample: three int16 samples,
duration 1/8000 s at the 24 kHz playback rate. -/
def cexBuf : List Nat := [0, 0, 0, 0, 0, 0]

/-- Inbound frame carrying only an interrupted signal. -/
def cexInterrupt : ServerMsg :=
  { setupComplete := false,
    serverContent := some
      { interrupted := true, modelTurn := none, inputTranscription := none,
        outputTranscription := none, turnComplete := false } }

/-- Inbound frame carrying only a turn-complete signal. -/
def cexTurnComplete : ServerMsg :=
  { setupComplete := false,
    serverContent := some
      { interrupted := false, modelTurn := none, inputTranscription := none,
        outputTranscription := none, turnComplete := true } }

/-! Supporting lemmas for the playback cursor. -/

theorem bufferDuration_nonneg (bytes : List Nat) : 0 ≤ bufferDuration bytes := by
  unfold bufferDuration
  positivity

theorem drainNextPlayTime_le (now : ℚ) (q : List (List Nat)) (npt : ℚ) :
    npt ≤ drainNextPlayTime now q npt := by
  induction q generalizing npt with
  | nil => exact le_refl _
  | cons b rest ih =>
    refine le_trans ?_ (ih (max now npt + bufferDuration b))
    exact le_trans (le_max_right now npt) (le_add_of_nonneg_right (bufferDuration_nonneg b))

theorem enqueueAudio_playbackOpen (now : ℚ) (b : List Nat) (s : SessionState) :
    (enqueueAudio now b s).playbackOpen = true := by
  unfold enqueueAudio playQueuedAudio
  cases h : s.playbackOpen <;> simp

theorem enqueueAudio_mono_of_open (now : ℚ) (b : List Nat) (s : SessionState)
    (h : s.playbackOpen = true) :
    s.nextPlayTime ≤ (enqueueAudio now b s).nextPlayTime := by
  unfold enqueueAudio playQueuedAudio
  simp only [h]
  simpa using drainNextPlayTime_le now (s.audioQueue ++ [b]) s.nextPlayTime

theorem enqueueAudio_le_of_closed (now : ℚ) (b : List Nat) (s : SessionState)
    (h : s.playbackOpen = false) :
    now ≤ (enqueueAudio now b s).nextPlayTime := by
  unfold enqueueAudio playQueuedAudio
  simp only [h]
  simpa using drainNextPlayTime_le now (s.audioQueue ++ [b]) now

theorem nptTrace_head (calls : List (ℚ × List Nat)) (s : SessionState) :
    (nptTrace calls s).head? = some s.nextPlayTime := by
  cases calls with
  | nil => rfl
  | cons c rest => rcases c with ⟨now, b⟩; rfl

theorem nptTrace_chain :
    ∀ (calls : List (ℚ × List Nat)) (s : SessionState),
      (∀ c ∈ calls, 0 ≤ c.1) →
      (s.playbackOpen = true ∨ s.nextPlayTime = 0) →
      List.Chain' (fun x y => x ≤ y) (nptTrace calls s) := by
  intro calls
  induction calls with
  | nil =>
    intro s _ _
    exact List.chain'_singleton _
  | cons c rest ih =>
    rcases c with ⟨now, b⟩
    intro s hc hs
    have hnow : 0 ≤ now := hc (now, b) (List.mem_cons_self _ _)
    have hstep : s.nextPlayTime ≤ (enqueueAudio now b s).nextPlayTime := by
      cases hop : s.playbackOpen with
      | true => exact enqueueAudio_mono_of_open now b s hop
      | false =>
        have hz : s.nextPlayTime = 0 := by
          rcases hs with h | h
          · rw [hop] at h; exact absurd h (by simp)
          · exact h
        rw [hz]
        exact le_trans hnow (enqueueAudio_le_of_closed now b s hop)
    have htail := ih (enqueueAudio now b s)
      (fun c hm => hc c (List.mem_cons_of_mem _ hm))
      (Or.inl (enqueueAudio_playbackOpen now b s))
    rw [nptTrace]
    refine List.chain'_cons'.mpr ⟨?_, htail⟩
    intro y hy
    rw [nptTrace_head] at hy
    cases hy
    exact hstep

/-- C8: a frame whose payload fails to parse is logged and dropped: the
handler leaves the whole session state (connection flag, both transcript
registers, the audio queue, `nextPlayTime`, scheduled playback) unchanged
and invokes no callbacks, so an `Active` session remains `Active`. -/
theorem malformed_frame_dropped (nowMs : Nat) (audioNow : ℚ) (s : SessionState) :
    handleMessage nowMs audioNow s none = (s, [Action.log "Error parsing message"]) := rfl

/-- C9: `sendText` outside the `Active` state (websocket missing or setup
acknowledgment not received) sends nothing, changes no state and only logs;
in the `Active` state it leaves the state unchanged and sends exactly one
frame carrying a complete, immediately-closed user turn. -/
theorem sendText_contract (nowMs : Nat) (s : SessionState) (text : String) :
    ((s.wsOpen = false ∨ s.isConnected = false) →
      sendText nowMs s text = (s, [Action.log "Not connected to Live API"])) ∧
    (s.wsOpen = true → s.isConnected = true →
      (sendText nowMs s text).1 = s ∧
      (sendText nowMs s text).2.filter isWsSend =
        [Action.wsSend { turns := [{ role := "user", parts := [text] }], turnComplete := true }]) := by
  constructor
  · intro h
    unfold sendText
    rw [if_pos h]
  · intro hw hcon
    unfold sendText
    rw [if_neg (by simp [hw, hcon])]
    exact ⟨rfl, rfl⟩

/-- C9 witness: the contract evaluated on a disconnected state and on an
active state. -/
theorem sendText_contract_witness :
    sendText 3 initialState "hi" = (initialState, [Action.log "Not connected to Live API"]) ∧
    (sendText 3 { initialState with wsOpen := true, isConnected := true } "hi").2.filter isWsSend =
      [Action.wsSend { turns := [{ role := "user", parts := ["hi"] }], turnComplete := true }] :=
  ⟨(sendText_contract 3 initialState "hi").1 (Or.inl rfl),
   ((sendText_contract 3 { initialState with wsOpen := true, isConnected := true } "hi").2 rfl rfl).2⟩

/-- C10: in the `Active` state every `sendText` call also invokes the
`onMessage` callback synchronously, exactly once, with a user-role message
whose content is the text argument and whose timestamp is the current
`Date.now()` reading. -/
theorem sendText_onMessage (nowMs : Nat) (s : SessionState) (text : String)
    (hw : s.wsOpen = true) (hcon : s.isConnected = true) :
    (sendText nowMs s text).2.filter isMessageCallback =
      [Action.callbackMessage { type := Role.user, content := text, timestamp := nowMs }] := by
  unfold sendText
  rw [if_neg (by simp [hw, hcon])]
  rfl

/-- C10 witness: the onMessage emission evaluated on a concrete active state. -/
theorem sendText_onMessage_witness :
    (sendText 42 { initialState with wsOpen := true, isConnected := true } "hello").2.filter isMessageCallback =
      [Action.callbackMessage { type := Role.user, content := "hello", timestamp := 42 }] :=
  sendText_onMessage 42 { initialState with wsOpen := true, isConnected := true } "hello" rfl rfl

/-- C4: from any state, `disconnect` leaves the session disconnected with
empty transcript registers and audio queue, microphone and playback
resources released, emits no message during teardown, and calling it again
is safe and a no-op. -/
theorem disconnect_contract (s : SessionState) :
    (disconnect s).1.isConnected = false ∧
    (disconnect s).1.userResponseBuffer = "" ∧
    (disconnect s).1.modelResponseBuffer = "" ∧
    (disconnect s).1.audioQueue = [] ∧
    (disconnect s).1.micOpen = false ∧
    (disconnect s).1.playbackOpen = false ∧
    (disconnect s).2 = [] ∧
    disconnect (disconnect s).1 = disconnect s := by
  rcases s with ⟨ws, ic, mic, q, po, npt, sch, ub, mb⟩
  cases po <;> cases ws <;> simp [disconnect]

/-- C5: along any sequence of playback enqueues from the freshly
constructed client, `nextPlayTime` after each call is at least its value
before the call, whatever the (nonnegative) playback-clock readings at
which the calls occur. -/
theorem nextPlayTime_monotone (calls : List (ℚ × List Nat))
    (h : ∀ c ∈ calls, 0 ≤ c.1) :
    List.Chain' (fun x y => x ≤ y) (nptTrace calls initialState) :=
  nptTrace_chain calls initialState h (Or.inr rfl)

/-- C5 witness: a concrete three-call sequence with jittery arrival times. -/
theorem nextPlayTime_monotone_witness :
    (∀ c ∈ [((0 : ℚ), [0, 0, 0, 0]), (2, [0, 0]), (1, [0, 0, 0, 0, 0, 0])], 0 ≤ c.1) ∧
    List.Chain' (fun x y => x ≤ y)
      (nptTrace [((0 : ℚ), [0, 0, 0, 0]), (2, [0, 0]), (1, [0, 0, 0, 0, 0, 0])] initialState) :=
  ⟨by decide, nextPlayTime_monotone _ (by decide)⟩

/-- Scalar PCM round trip: the float sample obtained from an in-range int16
value converts back to exactly that value. -/
theorem pcm_roundtrip_scalar (k : Int) (h1 : -32768 ≤ k) (h2 : k ≤ 32767) :
    float32ToPcm16 (pcm16ToFloat32 k) = k := by
  have hq : pcm16ToFloat32 k * 32768 = (k : ℚ) := by
    unfold pcm16ToFloat32
    field_simp
  unfold float32ToPcm16
  rw [hq]
  rw [min_eq_right (by exact_mod_cast h2), max_eq_right (by exact_mod_cast h1)]
  have htr : ratTrunc (k : ℚ) = k := by
    unfold ratTrunc
    rw [Rat.num_intCast, Rat.den_intCast]
    simp [Nat.div_one, Int.natCast_natAbs, Int.sign_mul_abs]
  unfold toInt16
  rw [htr]
  split <;> omega

/-- C6: converting a buffer of in-range int16 PCM samples to float samples
and back is exact, in particular each sample of the result is within one
least-significant-bit of the original. -/
theorem pcm16_float32_roundtrip (p : List Int)
    (hp : ∀ k ∈ p, -32768 ≤ k ∧ k ≤ 32767) :
    p.map (fun k => float32ToPcm16 (pcm16ToFloat32 k)) = p ∧
    ∀ k ∈ p, (float32ToPcm16 (pcm16ToFloat32 k) - k).natAbs ≤ 1 := by
  constructor
  · induction p with
    | nil => rfl
    | cons a t ih =>
      have ha := hp a (List.mem_cons_self _ _)
      rw [List.map_cons, pcm_roundtrip_scalar a ha.1 ha.2,
          ih (fun k hk => hp k (List.mem_cons_of_mem _ hk))]
  · intro k hk
    rw [pcm_roundtrip_scalar k (hp k hk).1 (hp k hk).2]
    simp

/-- C6 witness: the round trip evaluated on a buffer containing both range
extremes. -/
theorem pcm16_float32_roundtrip_witness :
    (∀ k ∈ [(-32768 : Int), -1, 0, 1, 32767], -32768 ≤ k ∧ k ≤ 32767) ∧
    ([(-32768 : Int), -1, 0, 1, 32767].map (fun k => float32ToPcm16 (pcm16ToFloat32 k)) =
      [(-32768 : Int), -1, 0, 1, 32767] ∧
     ∀ k ∈ [(-32768 : Int), -1, 0, 1, 32767],
       (float32ToPcm16 (pcm16ToFloat32 k) - k).natAbs ≤ 1) :=
  ⟨by decide, pcm16_float32_roundtrip _ (by decide)⟩

/-- State after the first barge-in-scenario enqueue at clock 0. -/
theorem cexStep1 : enqueueAudio 0 cexBuf initialState =
    { wsOpen := false, isConnected := false, micOpen := false, audioQueue := [],
      playbackOpen := true, nextPlayTime := 1/8000, scheduled := [(0, 1/8000)],
      userResponseBuffer := "", modelResponseBuffer := "" } := by
  simp [enqueueAudio, playQueuedAudio, initialState, drainNextPlayTime, drainStarts,
        bufferDuration, cexBuf]
  norm_num

/-- State after the second barge-in-scenario enqueue at clock 0. -/
theorem cexStep2 : enqueueAudio 0 cexBuf
    { wsOpen := false, isConnected := false, micOpen := false, audioQueue := [],
      playbackOpen := true, nextPlayTime := 1/8000, scheduled := [(0, 1/8000)],
      userResponseBuffer := "", modelResponseBuffer := "" } =
    { wsOpen := false, isConnected := false, micOpen := false, audioQueue := [],
      playbackOpen := true, nextPlayTime := 1/4000,
      scheduled := [(0, 1/8000), (1/8000, 1/8000)],
      userResponseBuffer := "", modelResponseBuffer := "" } := by
  simp [enqueueAudio, playQueuedAudio, drainNextPlayTime, drainStarts, bufferDuration,
        max_def, cexBuf]
  norm_num

/-- State after the third barge-in-scenario enqueue at clock 0. -/
theorem cexStep3 : enqueueAudio 0 cexBuf
    { wsOpen := false, isConnected := false, micOpen := false, audioQueue := [],
      playbackOpen := true, nextPlayTime := 1/4000,
      scheduled := [(0, 1/8000), (1/8000, 1/8000)],
      userResponseBuffer := "", modelResponseBuffer := "" } =
    { wsOpen := false, isConnected := false, micOpen := false, audioQueue := [],
      playbackOpen := true, nextPlayTime := 3/8000,
      scheduled := [(0, 1/8000), (1/8000, 1/8000), (1/4000, 1/8000)],
      userResponseBuffer := "", modelResponseBuffer := "" } := by
  simp [enqueueAudio, playQueuedAudio, drainNextPlayTime, drainStarts, bufferDuration,
        max_def, cexBuf]
  norm_num

/-- C1 counterexample: three audio parts are enqueued (scheduled
consecutively at 0, 1/8000 and 1/4000 s) and an `Interrupted` event is
handled at clock time 1/8000, before the third buffer's start time.
`onInterrupted` fires once, but the already-scheduled third buffer remains
(its start 1/4000 lies after the interrupt clock 1/8000), `nextPlayTime`
stays at the accumulated 3/8000 instead of being reset, and the next
enqueue at clock 1/8000 schedules its buffer at the old 3/8000, not at the
current clock time. -/
theorem interrupted_counterexample :
    (handleMessage 0 (1/8000)
        (enqueueAudio 0 cexBuf (enqueueAudio 0 cexBuf (enqueueAudio 0 cexBuf initialState)))
        (some cexInterrupt)).2 = [Action.callbackInterrupted] ∧
    ((1/4000 : ℚ), (1/8000 : ℚ)) ∈
      (handleMessage 0 (1/8000)
        (enqueueAudio 0 cexBuf (enqueueAudio 0 cexBuf (enqueueAudio 0 cexBuf initialState)))
        (some cexInterrupt)).1.scheduled ∧
    (1/8000 : ℚ) < 1/4000 ∧
    (handleMessage 0 (1/8000)
        (enqueueAudio 0 cexBuf (enqueueAudio 0 cexBuf (enqueueAudio 0 cexBuf initialState)))
        (some cexInterrupt)).1.nextPlayTime = 3/8000 ∧
    (enqueueAudio (1/8000) cexBuf
        (handleMessage 0 (1/8000)
          (enqueueAudio 0 cexBuf (enqueueAudio 0 cexBuf (enqueueAudio 0 cexBuf initialState)))
          (some cexInterrupt)).1).scheduled.getLast? = some (3/8000, 1/8000) ∧
    (3/8000 : ℚ) ≠ 1/8000 := by
  rw [cexStep1, cexStep2, cexStep3]
  have hmsg : handleMessage 0 (1/8000)
      { wsOpen := false, isConnected := false, micOpen := false, audioQueue := [],
        playbackOpen := true, nextPlayTime := 3/8000,
        scheduled := [(0, 1/8000), (1/8000, 1/8000), (1/4000, 1/8000)],
        userResponseBuffer := "", modelResponseBuffer := "" } (some cexInterrupt) =
      ({ wsOpen := false, isConnected := false, micOpen := false, audioQueue := [],
         playbackOpen := true, nextPlayTime := 3/8000,
         scheduled := [(0, 1/8000), (1/8000, 1/8000), (1/4000, 1/8000)],
         userResponseBuffer := "", modelResponseBuffer := "" },
       [Action.callbackInterrupted]) := by
    simp [handleMessage, handleServerContent, cexInterrupt]
  rw [hmsg]
  refine ⟨rfl, by simp, by norm_num, rfl, ?_, by norm_num⟩
  have henq : enqueueAudio (1/8000) cexBuf
      { wsOpen := false, isConnected := false, micOpen := false, audioQueue := [],
        playbackOpen := true, nextPlayTime := 3/8000,
        scheduled := [(0, 1/8000), (1/8000, 1/8000), (1/4000, 1/8000)],
        userResponseBuffer := "", modelResponseBuffer := "" } =
      { wsOpen := false, isConnected := false, micOpen := false, audioQueue := [],
        playbackOpen := true, nextPlayTime := 1/2000,
        scheduled := [(0, 1/8000), (1/8000, 1/8000), (1/4000, 1/8000), (3/8000, 1/8000)],
        userResponseBuffer := "", modelResponseBuffer := "" } := by
    simp [enqueueAudio, playQueuedAudio, drainNextPlayTime, drainStarts, bufferDuration,
          max_def, cexBuf]
    norm_num
  rw [henq]
  rfl

/-- C1 amended: handling an `Interrupted` event clears the pending (queued
but not yet scheduled) audio buffers and invokes `onInterrupted` exactly
once, but it neither discards already-scheduled buffers nor resets
`nextPlayTime`; a subsequent enqueue therefore schedules its buffer at
`max(current clock time, pre-interruption nextPlayTime)`, not at the
current clock time. -/
theorem interrupted_behavior (s : SessionState) (nowMs : Nat) (audioNow : ℚ)
    (sc : ServerContent) (h : sc.interrupted = true) :
    handleMessage nowMs audioNow s
        (some { setupComplete := false, serverContent := some sc }) =
      ({ s with audioQueue := [] }, [Action.callbackInterrupted]) ∧
    (∀ now b, s.playbackOpen = true →
      (enqueueAudio now b { s with audioQueue := [] }).scheduled =
        s.scheduled ++ [(max now s.nextPlayTime, bufferDuration b)] ∧
      (enqueueAudio now b { s with audioQueue := [] }).nextPlayTime =
        max now s.nextPlayTime + bufferDuration b) := by
  constructor
  · simp [handleMessage, handleServerContent, h]
  · intro now b hopen
    constructor <;>
      simp [enqueueAudio, playQueuedAudio, drainNextPlayTime, drainStarts, hopen]

/-- C1 amended witness: the interruption behavior evaluated on a concrete
mid-playback state. -/
theorem interrupted_behavior_witness :
    handleMessage 5 0
        { wsOpen := true, isConnected := true, micOpen := false, audioQueue := [],
          playbackOpen := true, nextPlayTime := 3, scheduled := [(2, 1)],
          userResponseBuffer := "", modelResponseBuffer := "" }
        (some { setupComplete := false,
                serverContent := some
                  { interrupted := true, modelTurn := none, inputTranscription := none,
                    outputTranscription := none, turnComplete := false } }) =
      ({ wsOpen := true, isConnected := true, micOpen := false, audioQueue := [],
         playbackOpen := true, nextPlayTime := 3, scheduled := [(2, 1)],
         userResponseBuffer := "", modelResponseBuffer := "" },
       [Action.callbackInterrupted]) ∧
    (enqueueAudio 1 [0, 0]
        { wsOpen := true, isConnected := true, micOpen := false, audioQueue := [],
          playbackOpen := true, nextPlayTime := 3, scheduled := [(2, 1)],
          userResponseBuffer := "", modelResponseBuffer := "" }).scheduled =
      [(2, 1)] ++ [(max 1 3, bufferDuration [0, 0])] := by
  have h := interrupted_behavior
    { wsOpen := true, isConnected := true, micOpen := false, audioQueue := [],
      playbackOpen := true, nextPlayTime := 3, scheduled := [(2, 1)],
      userResponseBuffer := "", modelResponseBuffer := "" } 5 0
    { interrupted := true, modelTurn := none, inputTranscription := none,
      outputTranscription := none, turnComplete := false } rfl
  exact ⟨h.1, (h.2 1 [0, 0] rfl).1⟩

/-- C2 counterexample: with the user register holding the non-empty
whitespace string " " and the model register empty, handling `TurnComplete`
emits zero messages for the non-empty register and leaves it uncleared
(still " "), contradicting one-message-per-non-empty-register and
both-registers-empty-afterward. -/
theorem turn_complete_counterexample :
    (handleMessage 7 0 { initialState with userResponseBuffer := " " }
        (some cexTurnComplete)).2.filter isMessageCallback = [] ∧
    (handleMessage 7 0 { initialState with userResponseBuffer := " " }
        (some cexTurnComplete)).1.userResponseBuffer = " " ∧
    (" " : String) ≠ "" := by
  decide

/-- C2 amended: handling `TurnComplete` emits, for each register whose
trimmed content is non-empty, exactly one message carrying the trimmed
accumulated text — user first, then model — and clears exactly those
registers; a register whose content trims to empty (in particular a
whitespace-only one) emits nothing and is left unchanged, so with both
registers empty zero messages are emitted. -/
theorem turn_complete_flush (nowMs : Nat) (audioNow : ℚ) (s : SessionState) :
    handleMessage nowMs audioNow s (some cexTurnComplete) =
      ({ s with
          userResponseBuffer :=
            if jsTrim s.userResponseBuffer = "" then s.userResponseBuffer else "",
          modelResponseBuffer :=
            if jsTrim s.modelResponseBuffer = "" then s.modelResponseBuffer else "" },
       (if jsTrim s.userResponseBuffer = "" then []
        else [Action.callbackMessage
          { type := Role.user, content := jsTrim s.userResponseBuffer, timestamp := nowMs }]) ++
       (if jsTrim s.modelResponseBuffer = "" then []
        else [Action.callbackMessage
          { type := Role.model, content := jsTrim s.modelResponseBuffer, timestamp := nowMs }]) ++
       [Action.callbackTurnComplete]) := by
  rcases s with ⟨ws, ic, mic, q, po, npt, sch, ub, mb⟩
  by_cases hu : jsTrim ub = "" <;> by_cases hm : jsTrim mb = "" <;>
    simp [handleMessage, handleServerContent, appendInput, appendOutput, flushTurn,
          cexTurnComplete, hu, hm]

/-- C3 counterexample: a single frame carrying an interrupted signal
together with an audio part is handled as an interruption only — the audio
part is neither enqueued nor scheduled nor surfaced through `onAudio`, so
not every event of the frame is routed. -/
theorem frame_routing_counterexample :
    handleMessage 0 0 initialState
        (some { setupComplete := false,
                serverContent := some
                  { interrupted := true,
                    modelTurn := some { parts := some [{ text := none, inlineData := some { data := some "AAAA" } }] },
                    inputTranscription := none, outputTranscription := none,
                    turnComplete := false } }) =
      ({ initialState with audioQueue := [] }, [Action.callbackInterrupted]) ∧
    base64ToBytes ("AAAA".toList) ≠ [] := by
  constructor
  · decide
  · decide

/-- C3 amended: a frame without an interrupted signal has all its events
routed even when they co-occur — handling the combined frame equals
handling, in sequence, a frame with only its audio parts, one with only its
input transcription, one with only its output transcription, and one with
only its turn-complete flag, with the emitted callbacks concatenated; a
frame with an interrupted signal is handled as interruption only and its
other events are dropped (see the counterexample). -/
theorem frame_routing_decomposition (nowMs : Nat) (audioNow : ℚ) (s : SessionState)
    (sc : ServerContent) (h : sc.interrupted = false) :
    handleMessage nowMs audioNow s
        (some { setupComplete := false, serverContent := some sc }) =
      ((handleMessage nowMs audioNow
          (handleMessage nowMs audioNow
            (handleMessage nowMs audioNow
              (handleMessage nowMs audioNow s
                (some { setupComplete := false,
                        serverContent := some
                          { interrupted := false, modelTurn := sc.modelTurn,
                            inputTranscription := none, outputTranscription := none,
                            turnComplete := false } })).1
              (some { setupComplete := false,
                      serverContent := some
                        { interrupted := false, modelTurn := none,
                          inputTranscription := sc.inputTranscription,
                          outputTranscription := none, turnComplete := false } })).1
            (some { setupComplete := false,
                    serverContent := some
                      { interrupted := false, modelTurn := none,
                        inputTranscription := none,
                        outputTranscription := sc.outputTranscription,
                        turnComplete := false } })).1
          (some { setupComplete := false,
                  serverContent := some
                    { interrupted := false, modelTurn := none,
                      inputTranscription := none, outputTranscription := none,
                      turnComplete := sc.turnComplete } })).1,
       (handleMessage nowMs audioNow s
          (some { setupComplete := false,
                  serverContent := some
                    { interrupted := false, modelTurn := sc.modelTurn,
                      inputTranscription := none, outputTranscription := none,
                      turnComplete := false } })).2 ++
       (handleMessage nowMs audioNow
          (handleMessage nowMs audioNow
            (handleMessage nowMs audioNow
              (handleMessage nowMs audioNow s
                (some { setupComplete := false,
                        serverContent := some
                          { interrupted := false, modelTurn := sc.modelTurn,
                            inputTranscription := none, outputTranscription := none,
                            turnComplete := false } })).1
              (some { setupComplete := false,
                      serverContent := some
                        { interrupted := false, modelTurn := none,
                          inputTranscription := sc.inputTranscription,
                          outputTranscription := none, turnComplete := false } })).1
            (some { setupComplete := false,
                    serverContent := some
                      { interrupted := false, modelTurn := none,
                        inputTranscription := none,
                        outputTranscription := sc.outputTranscription,
                        turnComplete := false } })).1
          (some { setupComplete := false,
                  serverContent := some
                    { interrupted := false, modelTurn := none,
                      inputTranscription := none, outputTranscription := none,
                      turnComplete := sc.turnComplete } })).2) := by
  rcases sc with ⟨intr, mt, itr, otr, tc⟩
  cases intr with
  | true => exact absurd h (by simp)
  | false =>
    cases tc <;>
      simp [handleMessage, handleServerContent, appendInput, appendOutput]

/-- C3 amended witness: the decomposition evaluated on a concrete frame
combining an input-transcription chunk with a turn-complete signal. -/
theorem frame_routing_decomposition_witness :
    handleMessage 1 0 initialState
        (some { setupComplete := false,
                serverContent := some
                  { interrupted := false, modelTurn := none,
                    inputTranscription := some { text := some "hi" },
                    outputTranscription := none, turnComplete := true } }) =
      (initialState,
       [Action.callbackMessage { type := Role.user, content := "hi", timestamp := 1 },
        Action.callbackTurnComplete]) :=
  (frame_routing_decomposition 1 0 initialState
    { interrupted := false, modelTurn := none,
      inputTranscription := some { text := some "hi" },
      outputTranscription := none, turnComplete := true } rfl).trans (by decide)

/-- Decoding inverts encoding on every single sextet value. -/
theorem charToSextet_sextetToChar : ∀ n, n < 64 → charToSextet (sextetToChar n) = n := by
  decide

/-- No alphabet character is the padding character. -/
theorem sextetToChar_ne_pad : ∀ n, n < 64 → sextetToChar n ≠ '=' := by
  decide

/-- C7: decoding the base64 text produced by encoding any byte buffer
yields exactly that buffer — the round trip is lossless. -/
theorem base64_roundtrip (bs : List Nat) (h : ∀ x ∈ bs, x < 256) :
    base64ToBytes (bytesToBase64 bs) = bs := by
  induction bs using bytesToBase64.induct with
  | case1 => rfl
  | case2 a =>
    have ha : a < 256 := h a (by simp)
    have e1 := charToSextet_sextetToChar (a / 4) (by omega)
    have e2 := charToSextet_sextetToChar (a % 4 * 16) (by omega)
    simp only [bytesToBase64, base64ToBytes, if_pos, e1, e2, List.cons.injEq, and_true]
    omega
  | case3 a b =>
    have ha : a < 256 := h a (by simp)
    have hb : b < 256 := h b (by simp)
    have e1 := charToSextet_sextetToChar (a / 4) (by omega)
    have e2 := charToSextet_sextetToChar (a % 4 * 16 + b / 16) (by omega)
    have e3 := charToSextet_sextetToChar (b % 16 * 4) (by omega)
    have n3 := sextetToChar_ne_pad (b % 16 * 4) (by omega)
    simp only [bytesToBase64, base64ToBytes, if_neg n3, if_pos, e1, e2, e3,
               List.cons.injEq, and_true]
    omega
  | case4 a b c rest ih =>
    have ha : a < 256 := h a (by simp)
    have hb : b < 256 := h b (by simp)
    have hc : c < 256 := h c (by simp)
    have e1 := charToSextet_sextetToChar (a / 4) (by omega)
    have e2 := charToSextet_sextetToChar (a % 4 * 16 + b / 16) (by omega)
    have e3 := charToSextet_sextetToChar (b % 16 * 4 + c / 64) (by omega)
    have e4 := charToSextet_sextetToChar (c % 64) (by omega)
    have n3 := sextetToChar_ne_pad (b % 16 * 4 + c / 64) (by omega)
    have n4 := sextetToChar_ne_pad (c % 64) (by omega)
    have htail := ih (fun x hx => h x (by simp [hx]))
    simp only [bytesToBase64, base64ToBytes, if_neg n3, if_neg n4, e1, e2, e3, e4,
               htail, List.cons.injEq, and_true]
    omega

/-- C7 witness: the round trip evaluated on a concrete buffer exercising a
full three-byte group and a two-byte padded tail. -/
theorem base64_roundtrip_witness :
    (∀ x ∈ [77, 97, 110, 0, 255], x < 256) ∧
    base64ToBytes (bytesToBase64 [77, 97, 110, 0, 255]) = [77, 97, 110, 0, 255] :=
  ⟨by decide, base64_roundtrip _ (by decide)⟩

end GeminiLive
